import Mathlib

/-!
# Verification of the TFT–Klipper adapter command translation engine

Shallow embedding of the command translator of `tftadapter.py` (the
Moonraker-component iteration of the adapter) and of the state-mirror
merge of `main.py`.  Strings are modelled through their character lists
(`String.toList`); Python floats are modelled as rationals; code that can
raise an exception is modelled with `Option`/`Except`.  Serial writes,
queued backend scripts and direct-handler dispatches are modelled as an
explicit event trace (including the enqueueing of a bare handler method,
which is what the shadowed `queue_task` makes of a direct-gcode dispatch).
-/

namespace TftKlipper

/-! ## Python string primitives (character-list semantics) -/

/-- Python slicing `s[n:]` (character based; the adapter only handles ASCII). -/
def strDrop (s : String) (n : Nat) : String := ⟨s.toList.drop n⟩

/-- Python `s.startswith(p)`. -/
def startsWithStr (p s : String) : Bool := p.toList.isPrefixOf s.toList

/-- Python `s.upper()`. -/
def upperStr (s : String) : String := ⟨s.toList.map Char.toUpper⟩

/-- Characters Python `str.split()` and `str.strip()` treat as whitespace
(the ASCII whitespace; the serial dialect is ASCII). -/
def isPyWS (c : Char) : Bool :=
  c = ' ' || c = '\t' || c = '\n' || c = '\r' || c = '\x0b' || c = '\x0c'

/-- Python `s.strip()` (strip whitespace from both ends). -/
def pyStrip (s : String) : String :=
  ⟨((s.toList.dropWhile isPyWS).reverse.dropWhile isPyWS).reverse⟩

/-- One splitting step of Python `str.split()`: collect the next
whitespace-free token. -/
def splitWSAux : List Char → List Char → List (List Char)
  | [], acc => if acc.isEmpty then [] else [acc.reverse]
  | c :: rest, acc =>
    if isPyWS c then
      if acc.isEmpty then splitWSAux rest [] else acc.reverse :: splitWSAux rest []
    else splitWSAux rest (c :: acc)

/-- Python `s.split()` with no argument: split on whitespace runs,
dropping empty fields. -/
def pySplit (s : String) : List String := (splitWSAux s.toList []).map (fun l => ⟨l⟩)

/-- Substring test used for Python's `pat in s`. -/
def containsSub (pat : List Char) : List Char → Bool
  | [] => pat.isEmpty
  | c :: rest => pat.isPrefixOf (c :: rest) || containsSub pat rest

/-- Python `pat in s` on strings. -/
def strContains (s pat : String) : Bool := containsSub pat.toList s.toList

/-- Nonempty all-digit character list (`\d+`). -/
def isDigits (l : List Char) : Bool := !l.isEmpty && l.all Char.isDigit

/-- The regex `^-?\d+$` used by `process_line` to detect integer literals. -/
def isPyIntLit (s : String) : Bool :=
  match s.toList with
  | '-' :: rest => isDigits rest
  | l => isDigits l

/-- The regex `^-?\d+(?:\.\d+)?$` used by `process_line` to detect
numeric parameters. -/
def isPyNumberLit (s : String) : Bool :=
  let l := match s.toList with
    | '-' :: rest => rest
    | l => l
  match l.splitOn '.' with
  | [d] => isDigits d
  | [d, f] => isDigits d && isDigits f
  | _ => false

/-- Numeric value of a digit list. -/
def digitsToNat (l : List Char) : Nat := l.foldl (fun n c => 10 * n + (c.toNat - 48)) 0

/-- Python `int(s)` on a literal matching `^-?\d+$`. -/
def pyIntOf (s : String) : Int :=
  match s.toList with
  | '-' :: rest => -(digitsToNat rest : Int)
  | l => (digitsToNat l : Int)

/-- Digit run as accepted by Python `int()`: single underscores may
separate digit groups (`\d+(_\d+)*`). -/
def intDigits : List Char → Bool
  | [] => false
  | c :: rest => c.isDigit && intDigitsRest rest
where
  intDigitsRest : List Char → Bool
    | [] => true
    | '_' :: rest =>
      match rest with
      | [] => false
      | c :: r => c.isDigit && intDigitsRest r
    | c :: rest => c.isDigit && intDigitsRest rest

/-- Whether Python `int(s)` accepts `s`: surrounding whitespace, an
optional `+`/`-` sign, then digits with optional underscore grouping. -/
def pyIntAccepts (s : String) : Bool :=
  match (pyStrip s).toList with
  | '+' :: r => intDigits r
  | '-' :: r => intDigits r
  | l => intDigits l

/-- The value Python `int(s)` returns on an accepted `s`. -/
def pyIntValue (s : String) : Int :=
  match (pyStrip s).toList with
  | '+' :: r => (digitsToNat (r.filter (· ≠ '_')) : Int)
  | '-' :: r => -(digitsToNat (r.filter (· ≠ '_')) : Int)
  | l => (digitsToNat (l.filter (· ≠ '_')) : Int)

/-- Python `float(s)` on a literal matching `^-?\d+\.\d+$` (or an integer
literal), as an exact rational. -/
def pyFloatOf (s : String) : ℚ :=
  let signed : Bool := s.toList.headD ' ' = '-'
  let l := if signed then s.toList.drop 1 else s.toList
  let q : ℚ :=
    match l.splitOn '.' with
    | [d, f] => (digitsToNat d : ℚ) + (digitsToNat f : ℚ) / ((10 : ℚ) ^ f.length)
    | _ => (digitsToNat l : ℚ)
  if signed then -q else q

/-! ## Events and G-code parameter values -/

/-- A value bound to a G-code parameter by `process_line`
(`int`, `float`, or the residual `arg_string`). -/
inductive PyVal where
  | int (n : Int)
  | float (q : ℚ)
  | str (s : String)
  deriving DecidableEq, Repr

/-- One observable side effect of the translator.  `write s` is
`write_response`'s message (the code appends the trailing newline when
encoding); `queueScript s` is a G-code string appended to `self.queue`
(later executed as a backend script by `_process_queue`);
`queueHandler g` is the bare bound handler method registered for the
direct gcode `g` appended to `self.queue` — this is what
`self.queue_task(func, **params)` (line 513) does with empty `params`,
because the single-parameter `queue_task` at line 527 shadows the
dispatch wrapper at line 524; `emergencyStop` is the
`klippy_apis.emergency_stop` RPC. -/
inductive Event where
  | write (s : String)
  | queueScript (s : String)
  | queueHandler (gcode : String)
  | emergencyStop
  deriving DecidableEq, Repr

/-- Last-binding lookup in an association list (Python `dict` lookup,
where a later assignment to the same key overwrites an earlier one). -/
def lookupLast {κ α : Type} [DecidableEq κ] (k : κ) : List (κ × α) → Option α
  | [] => none
  | kv :: rest => (lookupLast k rest).elim (if kv.1 = k then some kv.2 else none) some

/-- Python `d[k] = v` on an association-list model of a `dict`:
replace the binding if the key is present, else append it. -/
def alistSet {κ α : Type} [DecidableEq κ] (k : κ) (v : α) : List (κ × α) → List (κ × α)
  | [] => [(k, v)]
  | kv :: rest => if kv.1 = k then (k, v) :: rest else kv :: alistSet k v rest

/-! ## `TFTAdapter.process_line` -/

/-- Keys of `TFTAdapter.direct_gcodes` (tftadapter.py lines 326–371). -/
def direct_gcodes : List String :=
  ["G26", "G29", "G30", "M0", "M20", "M21", "M23", "M24", "M25", "M27",
   "M30", "M32", "M33", "M36", "M48", "M82", "M92", "M105", "M108", "M114",
   "M115", "M118", "M120", "M121", "M150", "M154", "M155", "M201", "M203",
   "M206", "M211", "M220", "M221", "M280", "M290", "M420", "M500", "M503",
   "M524", "M701", "M702", "M851", "M999", "T0"]

/-- `TFTAdapter.standard_gcodes` (tftadapter.py lines 373–382). -/
def standard_gcodes : List String :=
  ["G0", "G1", "G28", "G90", "M84", "M104", "M106", "M140"]

/-- The parameter-building loop of `process_line` (lines 495–510): a
non-numeric token is accumulated into `arg_string` (Python's falsy test
on `params.get("arg_string")` treats both a missing key and an empty
string as unset); a numeric token `Xv` binds `arg_x` to `int(v)` or
`float(v)`. -/
def paramStep (params : List (String × PyVal)) (part : String) : List (String × PyVal) :=
  if !isPyNumberLit (strDrop part 1) then
    match lookupLast "arg_string" params with
    | some (PyVal.str s) =>
      if s = "" then alistSet "arg_string" (PyVal.str part) params
      else alistSet "arg_string" (PyVal.str (s ++ " " ++ part)) params
    | _ => alistSet "arg_string" (PyVal.str part) params
  else
    let key := "arg_" ++ (Char.toLower (part.toList.headD ' ')).toString
    if isPyIntLit (strDrop part 1) then alistSet key (PyVal.int (pyIntOf (strDrop part 1))) params
    else alistSet key (PyVal.float (pyFloatOf (strDrop part 1))) params

/-- Keyword parameters built by `process_line` from the tokens after the
command code. -/
def buildParams (parts : List String) : List (String × PyVal) := parts.foldl paramStep []

/-- `TFTAdapter.process_line` (tftadapter.py lines 472–522).  Returns the
event trace, or `none` when the line raises an exception that escapes
(`parts[0]` on an empty split result; the `TypeError` described below).
Two notes on the source: (a) it performs no checksum validation — the
`enable_checksum` config flag read in `__init__` (line 268) is never
consulted, so it is not a parameter here; (b) the direct-gcode dispatch
`self.queue_task(func, **params)` (line 513) resolves to the
single-parameter `queue_task` at line 527, which shadows the dispatch
wrapper at line 524: with non-empty `params` the call raises
`TypeError: unexpected keyword argument` (caught and only logged by
`_handle_incoming`, modelled `none`), and with empty `params` the bare
bound method itself is appended to the queue
(`Event.queueHandler`; see `drain_queue_item` for its fate). -/
def process_line (line : String) : Option (List Event) :=
  -- "If we find M112 in the line then skip verification"
  if strContains (upperStr line) "M112" then some [Event.emergencyStop]
  else
    let script := line
    match pySplit script with
    | [] => none   -- `parts[0]` raises IndexError
    | gcode :: rest =>
      -- `parts[0].strip()` is the identity on a whitespace-split token
      let parts : List String :=
        if gcode ∈ ["M23", "M30", "M32", "M36", "M37"] then
          [gcode, pyStrip (strDrop script gcode.length)]
        else gcode :: rest
      if gcode ∈ direct_gcodes || gcode ∈ standard_gcodes then
        if gcode ∈ standard_gcodes then
          some [Event.queueScript script, Event.write "ok"]
        else
          -- `self.queue_task(func, **params)`, with `queue_task` the
          -- shadowing definition of line 527
          if (buildParams (parts.drop 1)).isEmpty then
            some [Event.queueHandler gcode]
          else
            none   -- TypeError: queue_task() got an unexpected keyword argument
      else
        -- "Unregistered command": logged, then queued verbatim
        if script.toList.isEmpty then some [] else some [Event.queueScript script]

/-- The fate of one queued item in `TFTAdapter._process_queue`
(tftadapter.py lines 540–565): a queued string is executed as a backend
G-code script (the returned singleton); a queued bare handler method is
neither a `str` nor a tuple, so the unpacking `cmd, args, kwargs = item`
(line 558), which sits outside the `try`, raises `TypeError` — the drain
coroutine dies with no event produced (`none`). -/
def drain_queue_item : Event → Option (List String)
  | Event.queueScript s => some [s]
  | Event.queueHandler _ => none
  | _ => some []   -- writes and the emergency stop are never queue items

/-- Modelled from the spec: the Marlin checksum — XOR of all bytes
before the `*`, low 8 bits.  No checksum computation exists anywhere in
the source; this definition only states what the spec demands. -/
def specXorChecksum (s : String) : Nat :=
  (s.toList.foldl (fun a c => Nat.xor a c.toNat) 0) % 256

/-! ## Decimal formatting (Python `format` / `repr` on floats)

Python float arithmetic is modelled by exact rationals; `round` and the
fixed-point `format` round half to even, which coincides with the binary
behaviour on the decimal inputs the adapter handles.  Rational values
are built and consumed through `Rat.divInt` and integer arithmetic on
`num`/`den` so that every definition evaluates by kernel reduction; the
lemmas `qofInt_eq`, `qdiv_eq` and `qmul_eq` below identify these
operations with the field operations on ℚ. -/

/-- The integer rational `n` (Python `int` promoted to `float`). -/
def qofInt (n : Int) : ℚ := Rat.divInt n 1

/-- Python float division `a / b`, as exact rationals. -/
def qdiv (a b : ℚ) : ℚ := Rat.divInt (a.num * (b.den : Int)) ((a.den : Int) * b.num)

/-- Python float multiplication `a * b`, as exact rationals. -/
def qmul (a b : ℚ) : ℚ := Rat.divInt (a.num * b.num) ((a.den : Int) * (b.den : Int))

/-- Round the fraction `n / d` (`d > 0`) to the nearest integer, ties to
even (the rounding of Python's `round` and of `format(x, '.3f')`). -/
def rndHalfEvenFrac (n d : Int) : Int :=
  if 2 * (n - d * Int.fdiv n d) < d then Int.fdiv n d
  else if d < 2 * (n - d * Int.fdiv n d) then Int.fdiv n d + 1
  else if Int.fdiv n d % 2 = 0 then Int.fdiv n d else Int.fdiv n d + 1

/-- `q` rounded to hundredths, as an integer count of hundredths
(Jinja's `round(2)` filter with its default `common` method): the
half-even rounding of `q * 100`. -/
def roundCenti (q : ℚ) : Int := rndHalfEvenFrac (q.num * 100) (q.den : Int)

/-- Python `repr`/`str` of the float `n / 100`: shortest decimal form,
so trailing zeros of the two-digit fraction are dropped, but at least
one fractional digit is kept (`210.0`, `60.3`, `60.03`, `205.12`). -/
def fmtCenti (n : Int) : String :=
  let sign := if n < 0 then "-" else ""
  let m := n.natAbs
  let frac := m % 100
  let fracStr :=
    if frac % 10 = 0 then toString (frac / 10)
    else if frac < 10 then "0" ++ toString frac
    else toString frac
  sign ++ toString (m / 100) ++ "." ++ fracStr

/-- Python `f"{q:.3f}"`: fixed three decimal places, zero padded (the
half-even rounding of `q * 1000`, rendered over 1000). -/
def fmt3 (q : ℚ) : String :=
  let n := rndHalfEvenFrac (q.num * 1000) (q.den : Int)
  let sign := if n < 0 then "-" else ""
  let m := n.natAbs
  let frac := m % 1000
  let fracStr :=
    if frac < 10 then "00" ++ toString frac
    else if frac < 100 then "0" ++ toString frac
    else toString frac
  sign ++ toString (m / 1000) ++ "." ++ fracStr

/-! ## Reply templates (tftadapter.py lines 49–115)

The Jinja template sources, with their rendering semantics on
float-valued mirror fields: `{{ v | round(2) }}` renders
`repr(round(v, 2))`. -/

/-- `PRINT_STATUS_TEMPLATE` (lines 49–51), literal Jinja source. -/
def PRINT_STATUS_TEMPLATE : String :=
  "//action:notification Layer Left \x7b\x7b (virtual_sdcard.file_position or 0) \x7d\x7d/\x7b\x7b (virtual_sdcard.file_size or 0) \x7d\x7d"

/-- `TEMPERATURE_TEMPLATE` (lines 53–57), literal Jinja source. -/
def TEMPERATURE_TEMPLATE : String :=
  "T:\x7b\x7b extruder.temperature | round(2) \x7d\x7d /\x7b\x7b extruder.target | round(2) \x7d\x7d " ++
  "B:\x7b\x7b heater_bed.temperature | round(2) \x7d\x7d /\x7b\x7b heater_bed.target | round(2) \x7d\x7d " ++
  "@:0 B@:0"

/-- `POSITION_TEMPLATE` (lines 110–115), literal Jinja source. -/
def POSITION_TEMPLATE : String :=
  "X:\x7b\x7b gcode_move.position[0] | round(2) \x7d\x7d " ++
  "Y:\x7b\x7b gcode_move.position[1] | round(2) \x7d\x7d " ++
  "Z:\x7b\x7b gcode_move.position[2] | round(2) \x7d\x7d " ++
  "E:\x7b\x7b gcode_move.position[3] | round(2) \x7d\x7d"

/-- Rendering of `TEMPERATURE_TEMPLATE` against mirror values
`extruder.temperature`, `extruder.target`, `heater_bed.temperature`,
`heater_bed.target` (floats, modelled as rationals). -/
def renderTemperature (et ett bt btt : ℚ) : String :=
  "T:" ++ fmtCenti (roundCenti et) ++ " /" ++ fmtCenti (roundCenti ett) ++
  " B:" ++ fmtCenti (roundCenti bt) ++ " /" ++ fmtCenti (roundCenti btt) ++
  " @:0 B@:0"

/-- Rendering of `POSITION_TEMPLATE` against `gcode_move.position`. -/
def renderPosition (x y z e : ℚ) : String :=
  "X:" ++ fmtCenti (roundCenti x) ++ " Y:" ++ fmtCenti (roundCenti y) ++
  " Z:" ++ fmtCenti (roundCenti z) ++ " E:" ++ fmtCenti (roundCenti e)

/-- `TFTAdapter._report_temperature` (lines 1040–1042): render the
temperature template and write it followed by `ok`. -/
def report_temperature (et ett bt btt : ℚ) : List Event :=
  [Event.write (renderTemperature et ett bt btt ++ "\nok")]

/-- `TFTAdapter._report_position` (lines 1044–1046): render the
position template and write it followed by `ok`. -/
def report_position (x y z e : ℚ) : List Event :=
  [Event.write (renderPosition x y z e ++ "\nok")]

/-! ## Filename handling (`_clean_filename`, `_select_sd_file`) -/

/-- `TFTAdapter._clean_filename` (tftadapter.py lines 567–583).
The source line `filename.strip(" \"\t\n")` computes a stripped copy and
discards it (Python strings are immutable and the result is not
assigned), so no quote/whitespace stripping takes place.  `none` models
the `IndexError` raised by `filename[0]` on an empty remainder. -/
def clean_filename (filename : String) : Option String :=
  -- `filename.strip(" \"\t\n")`: result discarded by the source
  let filename := if startsWithStr "0:/" filename then strDrop filename 3 else filename
  let filename :=
    if startsWithStr "gcodes/" filename then strDrop filename 6
    else if startsWithStr "/gcodes/" filename then strDrop filename 7
    else filename
  match filename.toList with
  | [] => none   -- `filename[0]` raises IndexError
  | c :: _ => if c ≠ '/' then some ("/" ++ filename) else some filename

/-- `TFTAdapter._select_sd_file` (lines 585–587).  On success returns
the new `current_file` slot value and the queued script; `none` models
the exception propagating out of `_clean_filename`, in which case the
slot is not assigned and nothing is queued. -/
def select_sd_file (arg_string : String) : Option (String × String) :=
  (clean_filename arg_string).map (fun f => (f, "M23 " ++ f))

/-! ## `_start_print` -/

/-- `TFTAdapter._start_print` (tftadapter.py lines 589–598).
`print_stats_state` is the mirror's `print_stats.state` (`none` when the
object or field is absent; the source defaults it to `"standby"`).
`Except.error` models a raised `TFTError`; `Except.ok` lists the scripts
queued for the backend. -/
def start_print (current_file : String) (print_stats_state : Option String) :
    Except String (List String) :=
  if current_file = "" then Except.error "No file selected to print"
  else
    let sd_state := print_stats_state.getD "standby"
    if sd_state = "paused" then Except.ok ["RESUME"]
    else if sd_state = "standby" ∨ sd_state = "cancelled" then
      Except.ok ["SDCARD_PRINT_FILE FILENAME=\"" ++ current_file ++ "\""]
    else Except.error "Cannot start printing, printer is not in a stopped state"

/-! ## `_set_led` -/

/-- One step of the dict comprehension
`{arg[0]: int(arg[1:]) for arg in args}` in `_set_led`: `none` models
the `IndexError` on an empty token and the `ValueError` on a value
`int()` rejects (`int()` accepts surrounding whitespace, an optional
sign and underscore digit grouping; see `pyIntAccepts`). -/
def parseLedArg (s : String) : Option (Char × Int) :=
  match s.toList with
  | [] => none   -- `arg[0]` raises IndexError
  | c :: _ =>
    if pyIntAccepts (strDrop s 1) then some (c, pyIntValue (strDrop s 1)) else none

/-- `TFTAdapter._set_led` (tftadapter.py lines 635–651): build the
`SET_LED` script from the `R`/`U`/`B`/`W`/`P` arguments (each channel is
`value/255` scaled by `P/255`, default `P = 255`), queue it, and write
`ok`. -/
def set_led (args : List String) : Option (List Event) := do
  let parsed ← args.mapM parseLedArg
  let red : ℚ := qdiv (qofInt ((lookupLast 'R' parsed).getD 0)) (qofInt 255)
  let green : ℚ := qdiv (qofInt ((lookupLast 'U' parsed).getD 0)) (qofInt 255)
  let blue : ℚ := qdiv (qofInt ((lookupLast 'B' parsed).getD 0)) (qofInt 255)
  let white : ℚ := qdiv (qofInt ((lookupLast 'W' parsed).getD 0)) (qofInt 255)
  let brightness : ℚ := qdiv (qofInt ((lookupLast 'P' parsed).getD 255)) (qofInt 255)
  let cmd :=
    "SET_LED LED=statusled " ++
    "RED=" ++ fmt3 (qmul red brightness) ++ " " ++
    "GREEN=" ++ fmt3 (qmul green brightness) ++ " " ++
    "BLUE=" ++ fmt3 (qmul blue brightness) ++ " " ++
    "WHITE=" ++ fmt3 (qmul white brightness) ++ " " ++
    "TRANSMIT=1 SYNC=1"
  pure [Event.queueScript cmd, Event.write "ok"]

/-! ## Auto-report timers (tftadapter.py lines 885–925)

`__init__` (lines 270–271) declares exactly two task slots:
`temperature_report_task` and `position_report_task`.  A running task is
modelled by the template string it renders and its interval. -/

/-- The two auto-report task slots of `TFTAdapter`. -/
structure Timers where
  temperature_report_task : Option (String × Int)
  position_report_task : Option (String × Int)
  deriving DecidableEq, Repr

/-- `TFTAdapter._set_temperature_report` (lines 885–897): replace or
cancel the temperature task, then write `ok`. -/
def set_temperature_report (t : Timers) (arg_s : Int) : Timers × List Event :=
  if arg_s > 0 then
    ({ t with temperature_report_task := some ("ok " ++ TEMPERATURE_TEMPLATE, arg_s) },
     [Event.write "ok"])
  else
    ({ t with temperature_report_task := none }, [Event.write "ok"])

/-- `TFTAdapter._set_position_report` (lines 899–911): replace or cancel
the position task (`ok` is only written in the cancel branch). -/
def set_position_report (t : Timers) (arg_s : Int) : Timers × List Event :=
  if arg_s > 0 then
    ({ t with position_report_task := some (POSITION_TEMPLATE, arg_s) }, [])
  else
    ({ t with position_report_task := none }, [Event.write "ok"])

/-- `TFTAdapter._set_print_status_report` (lines 913–925).  The body
manipulates `self.position_report_task` — the same attribute
`_set_position_report` owns — cancelling whatever task is stored there
and storing the print-status task in its place. -/
def set_print_status_report (t : Timers) (arg_s : Int) : Timers × List Event :=
  if arg_s > 0 then
    ({ t with position_report_task := some (PRINT_STATUS_TEMPLATE, arg_s) }, [])
  else
    ({ t with position_report_task := none }, [Event.write "ok"])

/-! ## State mirror merge (`main.py`, `WebSocketHandler.update_latest_values`)

Python dicts are modelled extensionally as functions `String → Option _`;
`d.update(delta)` is the pointwise right-biased override. -/

/-- Python `base.update(delta)` on a `dict`, as a pointwise override. -/
def dictUpdate {α : Type} (base delta : String → Option α) : String → Option α :=
  fun k => match delta k with
  | some v => some v
  | none => base k

/-- `WebSocketHandler.update_latest_values` (main.py lines 272–276):
for each object named in the delta, merge its fields into the mirrored
object if — and only if — the object is already a key of
`latest_values`. -/
def update_latest_values {α : Type}
    (latest updates : String → Option (String → Option α)) :
    String → Option (String → Option α) :=
  fun key => match latest key with
  | some obj =>
    match updates key with
    | some values => some (dictUpdate obj values)
    | none => some obj
  | none => none

/-- The mirror after a sequence of `notify_status_update` deltas has
been applied to the initial snapshot. -/
def applyDeltas {α : Type} (init : String → Option (String → Option α))
    (ds : List (String → Option (String → Option α))) :
    String → Option (String → Option α) :=
  ds.foldl update_latest_values init

/-- The value carried for field `fld` of object `key` by the most
recent delta in `ds` that mentions that field (`none` when no delta
mentions it). -/
def lastMention {α : Type} (ds : List (String → Option (String → Option α)))
    (key fld : String) : Option α :=
  ds.reverse.findSome? (fun d => (d key).bind (fun vs => vs fld))

/-- Modelled from the spec: the expected value of a mirrored field after
a delta sequence — the value of the most recent delta mentioning the
field, or the initial value when no delta mentions it. -/
def specLastWriterValue {α : Type} (base : String → Option α)
    (ds : List (String → Option (String → Option α))) (key fld : String) : Option α :=
  match lastMention ds key fld with
  | some v => some v
  | none => base fld

/-- A concrete initial mirrored `extruder` object, used to instantiate
the mirror-merge theorem. -/
def extruderInit : String → Option Nat :=
  fun f => if f = "temperature" then some 25 else none

/-- A concrete initial mirror holding only the `extruder` object. -/
def initMirror : String → Option (String → Option Nat) :=
  fun k => if k = "extruder" then some extruderInit else none

/-- A concrete `notify_status_update` delta setting `extruder.target`. -/
def delta1 : String → Option (String → Option Nat) :=
  fun k => if k = "extruder" then some (fun f => if f = "target" then some 210 else none) else none

/-! ## Helper lemmas -/

lemma qofInt_eq (n : Int) : qofInt n = (n : ℚ) := Rat.divInt_one n

lemma qdiv_eq (a b : ℚ) : qdiv a b = a / b := (Rat.div_def' a b).symm

lemma qmul_eq (a b : ℚ) : qmul a b = a * b := by
  unfold qmul
  rw [← Rat.divInt_mul_divInt' a.num (a.den : Int) b.num (b.den : Int),
    Rat.num_divInt_den, Rat.num_divInt_den]

lemma channel_eq (v p : Int) :
    qmul (qdiv (qofInt v) (qofInt 255)) (qdiv (qofInt p) (qofInt 255)) =
      (v : ℚ) / 255 * ((p : ℚ) / 255) := by
  rw [qmul_eq, qdiv_eq, qdiv_eq, qofInt_eq, qofInt_eq, qofInt_eq]
  norm_num

lemma rndHalfEvenFrac_mul_den (a d : Int) (hd : 0 < d) : rndHalfEvenFrac (a * d) d = a := by
  unfold rndHalfEvenFrac
  rw [Int.mul_fdiv_cancel a hd.ne']
  have h0 : a * d - d * a = 0 := by ring
  rw [h0]
  simp [hd]

lemma roundCenti_divInt (n : Int) : roundCenti (Rat.divInt n 100) = n := by
  have hden : (0 : Int) < ((Rat.divInt n 100).den : Int) := by
    exact_mod_cast (Rat.divInt n 100).pos
  have hcross : (Rat.divInt n 100).num * 100 = n * ((Rat.divInt n 100).den : Int) := by
    have h : ((Rat.divInt n 100).num : ℚ) / ((Rat.divInt n 100).den : ℚ) = (n : ℚ) / 100 := by
      rw [Rat.num_div_den, Rat.divInt_eq_div]
      norm_num
    rw [div_eq_div_iff (by exact_mod_cast (Rat.divInt n 100).pos.ne')
      (by norm_num : (100 : ℚ) ≠ 0)] at h
    exact_mod_cast h
  unfold roundCenti
  rw [hcross, rndHalfEvenFrac_mul_den _ _ hden]

lemma lastMention_cons {α : Type} (d : String → Option (String → Option α))
    (ds : List (String → Option (String → Option α))) (key fld : String) :
    lastMention (d :: ds) key fld =
      (lastMention ds key fld).or ((d key).bind (fun vs => vs fld)) := by
  unfold lastMention
  rw [List.reverse_cons, List.findSome?_append]
  congr 1
  cases h : (d key).bind (fun vs => vs fld) <;> simp [List.findSome?, h]

end TftKlipper

namespace TftKlipper

/-! ## Claim theorems -/

/-- C1 (counterexample): the line `M112` produces only the
emergency-stop RPC event; in particular the single-line reply
`Error:Emergency Stop` that the claim promises is never written. -/
theorem C1_counterexample :
    process_line "M112" = some [Event.emergencyStop] ∧
    Event.write "Error:Emergency Stop" ∉ [Event.emergencyStop] := by decide

/-- C1 (amended): every input line containing `M112` (in any case —
hence in particular every line containing the token `M112`) immediately
invokes the backend emergency-stop RPC, bypassing any validation and
queueing, and sends no reply to the TFT. -/
theorem C1_emergency_no_reply (line : String)
    (h : strContains (upperStr line) "M112" = true) :
    process_line line = some [Event.emergencyStop] := by
  simp [process_line, h]

/-- C1 (witness): instantiation of the amended claim at the line
`M112`. -/
theorem C1_witness :
    strContains (upperStr "M112") "M112" = true ∧
    process_line "M112" = some [Event.emergencyStop] :=
  ⟨by decide, C1_emergency_no_reply "M112" (by decide)⟩

/-- C2 (code bug evidence): the line `G28 *00` carries a checksum that
does not match (the XOR of the bytes before `*` is 109, not 0), yet
`process_line` queues the line verbatim for the backend and replies
`ok`; no `Error:Invalid Checksum` reply exists anywhere in the code,
even though `__init__` reads an `enable_checksum` option for this
purpose. -/
theorem C2_checksum_never_validated :
    specXorChecksum "G28 " = 109 ∧ (109 : Nat) ≠ 0 ∧
    process_line "G28 *00" = some [Event.queueScript "G28 *00", Event.write "ok"] := by
  decide

/-- C3 (code bug evidence): M24 never reaches `_start_print`.
`process_line "M24"` appends the bare bound method to the queue (the
`queue_task` at line 527 shadows the dispatch wrapper at line 524), and
`_process_queue`'s unpacking at line 558 raises `TypeError` on it, so no
resume or print-start request is ever issued and no reply is sent, in
any printer state.  The last two conjuncts evaluate the (unreachable)
handler body itself at state `standby`: even it would issue a single
`SDCARD_PRINT_FILE` with no preceding `CLEAR_PAUSE`. -/
theorem C3_m24_no_action :
    process_line "M24" = some [Event.queueHandler "M24"] ∧
    drain_queue_item (Event.queueHandler "M24") = none ∧
    start_print "/cube.gcode" (some "standby") =
      Except.ok ["SDCARD_PRINT_FILE FILENAME=\"/cube.gcode\""] ∧
    "CLEAR_PAUSE" ∉ ["SDCARD_PRINT_FILE FILENAME=\"/cube.gcode\""] := by
  refine ⟨by decide, rfl, rfl, by decide⟩

/-- C4 (code bug evidence): `_clean_filename` does not remove
surrounding quotes — the result of the `strip` call on line 569 is
discarded — so a quoted argument keeps its quotes, contradicting both
the claim and the source's own comment; the specific `M23` example of
the claim does hold. -/
theorem C4_quotes_not_stripped :
    clean_filename "\"cube.gcode\"" = some "/\"cube.gcode\"" ∧
    clean_filename "0:/gcodes/cube.gcode" = some "/cube.gcode" ∧
    select_sd_file "0:/gcodes/cube.gcode" = some ("/cube.gcode", "M23 /cube.gcode") := by
  decide

/-- C5 (code bug evidence): M150 never reaches `_set_led`.  For
`M150 R255 U0 B0 P128`, `process_line` builds the non-empty keyword
params `arg_r …`, and `self.queue_task(func, **params)` (line 513)
raises `TypeError` — the `queue_task` at line 527 shadows the dispatch
wrapper of line 524 and takes no keyword arguments (independently,
`_set_led`'s own signature `args: List[str]` could not accept them
either) — so no `SET_LED` script is sent and no `ok` written; modelled
`none`.  The second conjunct evaluates the (unreachable) handler body on
the raw letter-value tokens its annotation expects: it would queue
exactly the claimed script, with `RED=0.502` (the lemma `channel_eq`
identifies each channel's rational with `(value/255) × (P/255)`). -/
theorem C5_m150_no_action :
    process_line "M150 R255 U0 B0 P128" = none ∧
    set_led ["R255", "U0", "B0", "P128"] = some
      [Event.queueScript
        "SET_LED LED=statusled RED=0.502 GREEN=0.000 BLUE=0.000 WHITE=0.000 TRANSMIT=1 SYNC=1",
       Event.write "ok"] := by decide

/-- C6 (counterexample): the unknown command `M777` is not dropped — it
is queued verbatim for the backend. -/
theorem C6_counterexample :
    process_line "M777" = some [Event.queueScript "M777"] ∧
    some [Event.queueScript "M777"] ≠ (some [] : Option (List Event)) := by decide

/-- C6 (amended): every line whose command code is neither a direct
gcode nor a standard gcode (and that does not contain `M112`) is logged
and forwarded verbatim to the backend as a queued script, with no reply
to the TFT. -/
theorem C6_unknown_forwarded (line gcode : String) (rest : List String)
    (hsplit : pySplit line = gcode :: rest)
    (hm112 : strContains (upperStr line) "M112" = false)
    (hd : gcode ∉ direct_gcodes) (hs : gcode ∉ standard_gcodes) :
    process_line line = some [Event.queueScript line] := by
  have hne : ¬ line.data = [] := by
    intro hl
    have h0 : pySplit line = [] := by
      unfold pySplit
      rw [show line.toList = [] from hl]
      rfl
    rw [hsplit] at h0
    exact List.noConfusion h0
  simp [process_line, hm112, hsplit, hd, hs, hne]

/-- C6 (witness): instantiation of the amended claim at the line
`M777`. -/
theorem C6_witness :
    pySplit "M777" = ["M777"] ∧
    strContains (upperStr "M777") "M112" = false ∧
    "M777" ∉ direct_gcodes ∧ "M777" ∉ standard_gcodes ∧
    process_line "M777" = some [Event.queueScript "M777"] :=
  ⟨by decide, by decide, by decide, by decide,
    C6_unknown_forwarded "M777" "M777" [] (by decide) (by decide) (by decide) (by decide)⟩

/-- C7 (code bug evidence): no M105 or M114 reply is ever emitted.
Both lines enqueue the bare bound handler method (shadowed `queue_task`,
line 527 over 524), which `_process_queue` fails to unpack at line 558,
so `_report_temperature`/`_report_position` never run.  The last two
conjuncts evaluate the (unreachable) reply rendering at the mirror of
spec scenario 1: even it would not zero-pad — Jinja `round(2)` renders
target 210.0 as ` /210.0`, never the claimed ` /210.00`. -/
theorem C7_m105_no_reply :
    process_line "M105" = some [Event.queueHandler "M105"] ∧
    drain_queue_item (Event.queueHandler "M105") = none ∧
    process_line "M114" = some [Event.queueHandler "M114"] ∧
    drain_queue_item (Event.queueHandler "M114") = none ∧
    report_temperature (Rat.divInt 20512 100) (Rat.divInt 21000 100) (Rat.divInt 6003 100)
      (Rat.divInt 6000 100) =
      [Event.write "T:205.12 /210.0 B:60.03 /60.0 @:0 B@:0\nok"] ∧
    strContains (renderTemperature (Rat.divInt 20512 100) (Rat.divInt 21000 100)
      (Rat.divInt 6003 100) (Rat.divInt 6000 100)) "/210.00" = false := by decide

/-- C8: after any sequence of `notify_status_update` deltas, an object
absent from the initial snapshot stays absent (the key set never grows),
and every field of an object present at startup equals the value of the
most recent delta mentioning that field, or its initial value when no
delta mentions it. -/
theorem C8_mirror_merge {α : Type} (init : String → Option (String → Option α))
    (ds : List (String → Option (String → Option α))) (key : String) :
    (init key = none → applyDeltas init ds key = none) ∧
    (∀ base, init key = some base → ∃ obj, applyDeltas init ds key = some obj ∧
      ∀ fld, obj fld = specLastWriterValue base ds key fld) := by
  induction ds generalizing init with
  | nil =>
    exact ⟨fun h => h, fun base h => ⟨base, h, fun fld => rfl⟩⟩
  | cons d ds ih =>
    constructor
    · intro h
      have h' : update_latest_values init d key = none := by
        simp [update_latest_values, h]
      have := (ih (update_latest_values init d)).1 h'
      simpa [applyDeltas] using this
    · intro base h
      have h' : update_latest_values init d key =
          some (match d key with | some vs => dictUpdate base vs | none => base) := by
        simp only [update_latest_values, h]
        cases d key <;> rfl
      obtain ⟨obj, ho, hf⟩ := (ih (update_latest_values init d)).2 _ h'
      refine ⟨obj, by simpa [applyDeltas] using ho, fun fld => ?_⟩
      rw [hf fld]
      unfold specLastWriterValue
      rw [lastMention_cons]
      cases hm : lastMention ds key fld with
      | some v => simp
      | none =>
        simp only [Option.none_or]
        cases hd : d key with
        | none => simp
        | some vs =>
          cases hv : vs fld with
          | none => simp [dictUpdate, hv]
          | some v => simp [dictUpdate, hv]

/-- C8 (witness): instantiation of the mirror-merge theorem at a
concrete snapshot and delta; the delta's `target` value wins and the
initial `temperature` survives. -/
theorem C8_witness :
    initMirror "extruder" = some extruderInit ∧
    (∃ obj, applyDeltas initMirror [delta1] "extruder" = some obj ∧
      ∀ fld, obj fld = specLastWriterValue extruderInit [delta1] "extruder" fld) ∧
    (applyDeltas initMirror [delta1] "extruder").elim none (fun obj => obj "target") =
      some 210 ∧
    (applyDeltas initMirror [delta1] "extruder").elim none (fun obj => obj "temperature") =
      some 25 :=
  ⟨rfl, (C8_mirror_merge initMirror [delta1] "extruder").2 extruderInit rfl, rfl, rfl⟩

set_option maxRecDepth 8192 in
/-- C9 (code bug evidence): `_set_print_status_report` stores its task
in `position_report_task` — the attribute owned by
`_set_position_report` — so `M27 S1` replaces a running position report
(template `POSITION_TEMPLATE`, interval 5) with the print-status task,
instead of leaving it unchanged. -/
theorem C9_print_status_clobbers_position :
    (set_position_report ⟨none, none⟩ 5).1.position_report_task =
      some (POSITION_TEMPLATE, 5) ∧
    (set_print_status_report (set_position_report ⟨none, none⟩ 5).1 1).1.position_report_task =
      some (PRINT_STATUS_TEMPLATE, 1) ∧
    PRINT_STATUS_TEMPLATE ≠ POSITION_TEMPLATE := by decide

/-- C10: every M23 argument that reduces to the empty string after the
`0:/` drive prefix is dropped makes `_clean_filename` raise on the
`filename[0]` check, so the selected-file slot is not assigned and no
`M23` script is forwarded. -/
theorem C10_empty_remainder (arg r : String) (h : arg = "0:/" ++ r) (hr : r = "") :
    clean_filename arg = none ∧ select_sd_file arg = none := by
  subst hr; subst h; exact ⟨rfl, rfl⟩

/-- C10 (witness): instantiation at the bare argument `0:/`. -/
theorem C10_witness :
    ("0:/" : String) = "0:/" ++ "" ∧ ("" : String) = "" ∧
    clean_filename "0:/" = none ∧ select_sd_file "0:/" = none :=
  ⟨by decide, rfl, (C10_empty_remainder "0:/" "" (by decide) rfl).1,
    (C10_empty_remainder "0:/" "" (by decide) rfl).2⟩

end TftKlipper
